import Mathlib

/-!
Verification of the prediction orchestration and risk-derivation pipeline of
the lung-cancer-detection backend.  The definitions below are a shallow
embedding of the Python sources:

* app/core/risk_engine.py: RiskEngine.calculate_risk
* app/services/prediction_service.py: PredictionService.run_prediction and
  PredictionService._derive_risk_level
* app/db/crud.py: create_prediction, create_audit_log,
  create_explainability_artifact
* app/core/privacy.py: PrivacyGuard.sanitize_log_data

Probabilities and confidences are modelled as rationals; the Python floats
only ever meet the constant thresholds 0.3 / 0.4 / 0.5 / 0.7 / 0.85 through
order comparisons, so the rational model is faithful for every claim below.
External collaborators (image preprocessing, the neural scorer, artifact
generation, patient-row storage, wall-clock timing) are abstracted as
pipeline inputs, exactly as the spec declares them out of scope.
-/

namespace LungCancer

/-- Enum PredictionStatus of app/db/models.py. -/
inductive PredictionStatus where
| SUCCESS
| INCONCLUSIVE
| MODEL_ERROR
| INPUT_INVALID
deriving DecidableEq

/-- Enum BinaryResult of app/db/models.py. -/
inductive BinaryResult where
| BENIGN
| MALIGNANT
deriving DecidableEq

/-- Enum StageResult of app/db/models.py. -/
inductive StageResult where
| LOW
| MEDIUM
| HIGH
deriving DecidableEq

/-- Enum RiskLevel of app/db/models.py. -/
inductive RiskLevel where
| LOW
| MEDIUM
| HIGH
| INCONCLUSIVE
deriving DecidableEq

/-- String value of each RiskLevel member (models.py, str enum). -/
def RiskLevel.value : RiskLevel → String
| .LOW => "LOW"
| .MEDIUM => "MEDIUM"
| .HIGH => "HIGH"
| .INCONCLUSIVE => "INCONCLUSIVE"

/-- Enum AuditEventType of app/db/models.py. -/
inductive AuditEventType where
| PREDICTION_CREATED
| MODEL_LOADED
| MODEL_RELOADED
| INFERENCE_FAILED
deriving DecidableEq

/-- Enum ReferenceType of app/db/models.py. -/
inductive ReferenceType where
| PREDICTION
| MODEL
deriving DecidableEq

/-- Enum ExplainabilityType of app/db/models.py. -/
inductive ExplainabilityType where
| GRADCAM
| ATTENTION
| NONE
deriving DecidableEq

/-- Enum ArtifactType of app/db/models.py. -/
inductive ArtifactType where
| GRADCAM
| ATTENTION
deriving DecidableEq

namespace RiskEngine

/-- Constant RiskEngine.MIN_CONFIDENCE of app/core/risk_engine.py. -/
def MIN_CONFIDENCE : ℚ := 0.4

/-- Embedding of RiskEngine.calculate_risk (app/core/risk_engine.py,
lines 7-20): maps a probability to a risk-level string. -/
def calculate_risk (probability : ℚ) : String :=
  if probability < MIN_CONFIDENCE then "Inconclusive"
  else if probability < 0.3 then "Low Risk"
  else if probability < 0.7 then "Medium Risk"
  else "High Risk"

end RiskEngine

/-- Constant CONFIDENCE_THRESHOLD of PredictionService._derive_risk_level
(app/services/prediction_service.py, line 269). -/
def CONFIDENCE_THRESHOLD : ℚ := 0.7

/-- Embedding of PredictionService._derive_risk_level
(app/services/prediction_service.py, lines 254-294).  The Python guard
`binary_confidence is None or binary_confidence < 0.7` is the outer match
plus the first test; the inner `if stage_result:` chain is exhaustive over
the three StageResult members, so the fall-through to the binary mapping
happens exactly when stage_result is None. -/
def deriveRiskLevel (binary_result : Option BinaryResult)
    (binary_confidence : Option ℚ)
    (stage_result : Option StageResult) : RiskLevel :=
  match binary_confidence with
  | none => .INCONCLUSIVE
  | some c =>
    if c < CONFIDENCE_THRESHOLD then .INCONCLUSIVE
    else
      match stage_result with
      | some .HIGH => .HIGH
      | some .MEDIUM => .MEDIUM
      | some .LOW => .LOW
      | none =>
        match binary_result with
        | some .MALIGNANT => if c ≥ 0.85 then .HIGH else .MEDIUM
        | some .BENIGN => .LOW
        | none => .INCONCLUSIVE

/-- Reference mapping transcribed from the words of the spec (section 4.3
step 7): absent or low binary confidence gives INCONCLUSIVE overriding any
stage result, else the stage result passes through, else the binary result
is mapped (MALIGNANT at confidence at least 0.85 to HIGH, below that to
MEDIUM, BENIGN to LOW), and anything unmapped is INCONCLUSIVE.  This is the
comparison point for the refinement claim C1, deliberately written from the
spec text and not from the code. -/
def specRiskMapping (binary_result : Option BinaryResult)
    (binary_confidence : Option ℚ)
    (stage_result : Option StageResult) : RiskLevel :=
  match binary_confidence with
  | none => .INCONCLUSIVE
  | some c =>
    if c < 0.7 then .INCONCLUSIVE
    else
      match stage_result with
      | some .LOW => .LOW
      | some .MEDIUM => .MEDIUM
      | some .HIGH => .HIGH
      | none =>
        match binary_result with
        | some .MALIGNANT => if c ≥ 0.85 then .HIGH else .MEDIUM
        | some .BENIGN => .LOW
        | none => .INCONCLUSIVE

/-- Row of the predictions table (app/db/models.py, class Prediction).
Timestamps are abstracted; the id mimics the autoincrement primary key. -/
structure PredictionRow where
  id : Nat
  patient_id : Nat
  model_id : Nat
  prediction_status : PredictionStatus
  binary_result : Option BinaryResult
  binary_confidence : Option ℚ
  stage_result : Option StageResult
  stage_confidence : Option ℚ
  risk_level : RiskLevel
deriving DecidableEq

/-- Row of the audit_logs table (app/db/models.py, class AuditLog). -/
structure AuditRow where
  event_type : AuditEventType
  reference_id : Option Nat
  reference_type : Option ReferenceType
  message : Option String
deriving DecidableEq

/-- Row of the explainability_artifacts table (app/db/models.py, class
ExplainabilityArtifact); the expiry timestamp is abstracted away since no
claim depends on it. -/
structure ArtifactRow where
  prediction_id : Nat
  artifact_type : ArtifactType
  artifact_ref : String
deriving DecidableEq

/-- Durable database state: the committed rows of the three tables the
claims are about.  Patient rows are handled by an out-of-scope collaborator
(spec section 4.3 step 1) and never touched by any claim, so they are not
modelled; a resolved patient id is a pipeline input instead. -/
structure DB where
  predictions : List PredictionRow
  audit_logs : List AuditRow
  artifacts : List ArtifactRow
deriving DecidableEq

/-- The empty database. -/
def emptyDB : DB := ⟨[], [], []⟩

/-- Embedding of crud.create_audit_log (app/db/crud.py, lines 252-271):
builds the AuditLog row from the arguments unchanged, appends it and
commits.  Note that the message is stored exactly as passed in. -/
def create_audit_log (db : DB) (event_type : AuditEventType)
    (reference_id : Option Nat) (reference_type : Option ReferenceType)
    (message : Option String) : DB × AuditRow :=
  let audit_log : AuditRow := ⟨event_type, reference_id, reference_type, message⟩
  ({ db with audit_logs := db.audit_logs ++ [audit_log] }, audit_log)

/-- First half of crud.create_prediction (app/db/crud.py, lines 114-128):
the Prediction row is built, added and committed.  This is the first of the
two commits the function performs; the accompanying audit event is not yet
written at this point. -/
def predictionCommit (db : DB) (patient_id model_id : Nat)
    (prediction_status : PredictionStatus) (risk_level : RiskLevel)
    (binary_result : Option BinaryResult) (binary_confidence : Option ℚ)
    (stage_result : Option StageResult) (stage_confidence : Option ℚ) :
    DB × PredictionRow :=
  let prediction : PredictionRow :=
    ⟨db.predictions.length + 1, patient_id, model_id, prediction_status,
     binary_result, binary_confidence, stage_result, stage_confidence,
     risk_level⟩
  ({ db with predictions := db.predictions ++ [prediction] }, prediction)

/-- Embedding of crud.create_prediction (app/db/crud.py, lines 96-139):
commit the Prediction row, then call create_audit_log, which performs its
own separate commit of the PREDICTION_CREATED event. -/
def create_prediction (db : DB) (patient_id model_id : Nat)
    (prediction_status : PredictionStatus) (risk_level : RiskLevel)
    (binary_result : Option BinaryResult) (binary_confidence : Option ℚ)
    (stage_result : Option StageResult) (stage_confidence : Option ℚ) :
    DB × PredictionRow :=
  let r1 := predictionCommit db patient_id model_id prediction_status
    risk_level binary_result binary_confidence stage_result stage_confidence
  let r2 := create_audit_log r1.1 .PREDICTION_CREATED (some r1.2.id)
    (some .PREDICTION) (some ("Prediction created: " ++ risk_level.value ++ " risk"))
  (r2.1, r1.2)

/-- The durable states visible to other readers during one execution of
crud.create_prediction: before the call, after the commit on line 127, and
after the commit inside create_audit_log (line 268). -/
def create_prediction_durables (db : DB) (patient_id model_id : Nat)
    (prediction_status : PredictionStatus) (risk_level : RiskLevel)
    (binary_result : Option BinaryResult) (binary_confidence : Option ℚ)
    (stage_result : Option StageResult) (stage_confidence : Option ℚ) :
    List DB :=
  [db,
   (predictionCommit db patient_id model_id prediction_status risk_level
      binary_result binary_confidence stage_result stage_confidence).1,
   (create_prediction db patient_id model_id prediction_status risk_level
      binary_result binary_confidence stage_result stage_confidence).1]

/-- Embedding of crud.create_explainability_artifact (app/db/crud.py,
lines 189-214), with the expiry timestamp abstracted away. -/
def create_explainability_artifact (db : DB) (prediction_id : Nat)
    (artifact_type : ArtifactType) (artifact_ref : String) : DB × ArtifactRow :=
  let artifact : ArtifactRow := ⟨prediction_id, artifact_type, artifact_ref⟩
  ({ db with artifacts := db.artifacts ++ [artifact] }, artifact)

/-- Sensitive key list of PrivacyGuard.sanitize_log_data
(app/core/privacy.py, line 13). -/
def sensitive_keys : List String := ["file_bytes", "image_data", "patient_name"]

/-- Embedding of PrivacyGuard.sanitize_log_data (app/core/privacy.py,
lines 6-18).  Python dicts have unique keys, so the dict is modelled as an
association list and the per-key overwrite loop as a map that replaces the
value of every sensitive key with the redaction marker. -/
def sanitize_log_data (data : List (String × String)) : List (String × String) :=
  data.map (fun kv => if kv.1 ∈ sensitive_keys then (kv.1, "[REDACTED]") else kv)

/-- Registered model row as seen by the pipeline (app/db/models.py, class
Model): only the fields run_prediction reads. -/
structure ModelRow where
  id : Nat
  supports_stage : Bool
  supports_explainability : Bool
  explainability_type : ExplainabilityType
deriving DecidableEq

/-- Outcome of inference_engine.predict_binary as observed by the pipeline:
either a probability, or an InferenceError.  The engine folds its internal
timeout check into InferenceError as well (app/core/inference_engine.py,
lines 10-32), so failure and timeout are one observable case. -/
inductive ScoreOutcome where
| ok (prob : ℚ)
| inferenceError
deriving DecidableEq

/-- Exceptions that can escape run_prediction, from app/core/exceptions.py
plus the builtin AttributeError.  ModelNotFoundError is declared in
exceptions.py; it is included so that claims about it are statable. -/
inductive PipelineError where
| invalidImage
| inferenceError
| modelNotFound
| attributeError
deriving DecidableEq

/-- Result of one call to run_prediction: a normal return of the persisted
Prediction row plus the optional explainability reference, or an escaped
exception. -/
inductive Outcome where
| ok (pred : PredictionRow) (explainability_ref : Option String)
| err (e : PipelineError)
deriving DecidableEq

/-- The per-request environment of run_prediction: the results produced by
the out-of-scope collaborators during this run.  patient_id is the id
resolved by step 1 (get_or_create_patient), modelLookup the result of
crud.get_active_model, validImage the result of image.validate_image_file,
score the observable outcome of inference_engine.predict_binary, and
explainResult the reference produced by the explainability generator (none
when generation raised, which the code swallows). -/
structure Env where
  patient_id : Nat
  modelLookup : Option ModelRow
  validImage : Bool
  score : ScoreOutcome
  explainResult : Option String

/-- Embedding of step 5 of run_prediction
(app/services/prediction_service.py, lines 137-151): the stage variables
start as None and are assigned only when the risk-engine string equals one
of the literals High, Medium or Low. -/
def stageStep (binary_prob : ℚ) : Option StageResult × Option ℚ :=
  let stage_info := RiskEngine.calculate_risk binary_prob
  if stage_info = "High" then (some .HIGH, some binary_prob)
  else if stage_info = "Medium" then (some .MEDIUM, some (binary_prob * 0.8))
  else if stage_info = "Low" then (some .LOW, some (1 - binary_prob))
  else (none, none)

/-- Python truthiness of the Optional[str] explainability reference, as
tested on line 230 of app/services/prediction_service.py: None and the
empty string are falsy. -/
def refTruthy : Option String → Bool
| none => false
| some r => r ≠ ""

/-- Embedding of PredictionService.run_prediction
(app/services/prediction_service.py, lines 47-252), given a database state
and the collaborator outcomes of this run.  Control flow notes, traced from
the Python source:

* Model missing (line 90): an InferenceError is raised inside the try, the
  generic handler on line 194 turns the status into MODEL_ERROR and
  re-raises, and the finally block then evaluates model.id with model equal
  to None, so the persistence attempt itself raises AttributeError, which
  the inner handler on line 249 rolls back (nothing was uncommitted) and
  re-raises.  The caller observes AttributeError and no row is written.
* Invalid image (line 99): status becomes INPUT_INVALID, so the finally
  block skips persistence entirely and contains no return on that path;
  the InvalidImageError propagates to the caller.
* Binary scoring failure (line 120): status becomes MODEL_ERROR, an
  INFERENCE_FAILED audit event referencing the model is committed, and the
  exception is re-raised; the finally block still persists the MODEL_ERROR
  row, and its return statement on line 247 then discards the in-flight
  exception, so the caller receives a normal return.  The audit message
  text of the caught exception is abstracted to a fixed string.
* Success: binary result from the 0.5 threshold, optional stage step,
  risk derivation, INCONCLUSIVE status coupling, best-effort
  explainability, persistence of the row, the PREDICTION_CREATED audit
  event and (when a truthy reference exists) the artifact row. -/
def run_prediction (db : DB) (env : Env) : DB × Outcome :=
  match env.modelLookup with
  | none => (db, .err .attributeError)
  | some model =>
    if env.validImage = false then
      (db, .err .invalidImage)
    else
      match env.score with
      | .inferenceError =>
        let db1 := (create_audit_log db .INFERENCE_FAILED (some model.id)
          (some .MODEL) (some "Binary inference failed")).1
        let r := create_prediction db1 env.patient_id model.id
          .MODEL_ERROR .INCONCLUSIVE none none none none
        (r.1, .ok r.2 none)
      | .ok binary_prob =>
        let binary_result : BinaryResult :=
          if binary_prob ≥ 0.5 then .MALIGNANT else .BENIGN
        let stage := if model.supports_stage then stageStep binary_prob
          else (none, none)
        let risk_level := deriveRiskLevel (some binary_result)
          (some binary_prob) stage.1
        let prediction_status : PredictionStatus :=
          if risk_level = .INCONCLUSIVE then .INCONCLUSIVE else .SUCCESS
        let explainability_ref : Option String :=
          if model.supports_explainability then
            match model.explainability_type with
            | .GRADCAM => env.explainResult
            | .ATTENTION => env.explainResult
            | .NONE => none
          else none
        let r := create_prediction db env.patient_id model.id
          prediction_status risk_level (some binary_result)
          (some binary_prob) stage.1 stage.2
        let db2 :=
          if refTruthy explainability_ref ∧ model.supports_explainability then
            (create_explainability_artifact r.1 r.2.id
              (if model.explainability_type = .GRADCAM then .GRADCAM
               else .ATTENTION)
              (explainability_ref.getD "")).1
          else r.1
        (db2, .ok r.2 explainability_ref)

/-- Helper: calculate_risk returns one of its four literal strings. -/
theorem calculate_risk_cases (p : ℚ) :
    RiskEngine.calculate_risk p = "Inconclusive"
    ∨ RiskEngine.calculate_risk p = "Low Risk"
    ∨ RiskEngine.calculate_risk p = "Medium Risk"
    ∨ RiskEngine.calculate_risk p = "High Risk" := by
  unfold RiskEngine.calculate_risk
  split_ifs <;> simp

/-- Helper: the stage-mapping step of run_prediction never assigns the stage
fields, because calculate_risk never returns the bare strings High, Medium
or Low that the step compares against. -/
theorem stageStep_eq_none (p : ℚ) : stageStep p = (none, none) := by
  rcases calculate_risk_cases p with h | h | h | h <;>
    · unfold stageStep
      rw [h]
      rfl

/-- Claim C2: calculate_risk returns Inconclusive below the 0.4 confidence
floor, otherwise buckets by the 0.3 and 0.7 thresholds with a closed lower
bound, so 0.7 itself is High Risk; concretely 0.1 is Inconclusive, 0.5 is
Medium Risk and 0.9 is High Risk. -/
theorem c2_calculate_risk_buckets :
    (∀ p : ℚ, p < 0.4 → RiskEngine.calculate_risk p = "Inconclusive")
    ∧ (∀ p : ℚ, ¬ p < 0.4 →
        RiskEngine.calculate_risk p =
          (if p < 0.3 then "Low Risk"
           else if p < 0.7 then "Medium Risk" else "High Risk"))
    ∧ RiskEngine.calculate_risk 0.7 = "High Risk"
    ∧ RiskEngine.calculate_risk 0.1 = "Inconclusive"
    ∧ RiskEngine.calculate_risk 0.5 = "Medium Risk"
    ∧ RiskEngine.calculate_risk 0.9 = "High Risk" := by
  refine ⟨?_, ?_, ?_, ?_, ?_, ?_⟩
  · intro p hp
    unfold RiskEngine.calculate_risk RiskEngine.MIN_CONFIDENCE
    rw [if_pos hp]
  · intro p hp
    unfold RiskEngine.calculate_risk RiskEngine.MIN_CONFIDENCE
    rw [if_neg hp]
  all_goals norm_num [RiskEngine.calculate_risk, RiskEngine.MIN_CONFIDENCE]

/-- Witness for C2: both hypothesised parts applied at concrete
probabilities. -/
theorem c2_calculate_risk_buckets_witness :
    RiskEngine.calculate_risk 0.2 = "Inconclusive"
    ∧ RiskEngine.calculate_risk 0.8 = "High Risk" :=
  ⟨c2_calculate_risk_buckets.1 0.2 (by norm_num),
   (c2_calculate_risk_buckets.2.1 0.8 (by norm_num)).trans (by norm_num)⟩

/-- Claim C9: calculate_risk can never produce the Low Risk string (the 0.4
floor check runs first and covers the entire Low bucket), so its range is
Inconclusive, Medium Risk and High Risk; inside _derive_risk_level with no
stage result, a LOW outcome forces the BENIGN binary-fallback path. -/
theorem c9_low_risk_unreachable :
    (∃ p : ℚ, RiskEngine.calculate_risk p = "Low Risk") = False
    ∧ (∀ p : ℚ, p < 0.3 → RiskEngine.calculate_risk p = "Inconclusive")
    ∧ (∀ p : ℚ, RiskEngine.calculate_risk p = "Inconclusive"
        ∨ RiskEngine.calculate_risk p = "Medium Risk"
        ∨ RiskEngine.calculate_risk p = "High Risk")
    ∧ (∀ (br : Option BinaryResult) (c : ℚ),
        deriveRiskLevel br (some c) none = .LOW → br = some .BENIGN) := by
  refine ⟨?_, ?_, ?_, ?_⟩
  · apply eq_false
    rintro ⟨p, hp⟩
    unfold RiskEngine.calculate_risk RiskEngine.MIN_CONFIDENCE at hp
    split_ifs at hp with h1 h2 h3
    · exact absurd hp (by decide)
    · exact absurd (hp.symm.trans rfl) (by
        intro _
        exact h1 (h2.trans (by norm_num)))
    · exact absurd hp (by decide)
    · exact absurd hp (by decide)
  · intro p hp
    unfold RiskEngine.calculate_risk RiskEngine.MIN_CONFIDENCE
    rw [if_pos (hp.trans (by norm_num))]
  · intro p
    unfold RiskEngine.calculate_risk RiskEngine.MIN_CONFIDENCE
    split_ifs with h1 h2 h3
    · exact Or.inl rfl
    · exact absurd (h2.trans (by norm_num)) h1
    · exact Or.inr (Or.inl rfl)
    · exact Or.inr (Or.inr rfl)
  · intro br c h
    rcases br with _ | b
    · exfalso
      simp only [deriveRiskLevel] at h
      split_ifs at h
    · cases b with
      | BENIGN => rfl
      | MALIGNANT =>
        exfalso
        simp only [deriveRiskLevel] at h
        split_ifs at h

/-- Witness for C9: the hypothesised parts applied at concrete inputs. -/
theorem c9_low_risk_unreachable_witness :
    RiskEngine.calculate_risk 0.2 = "Inconclusive"
    ∧ some BinaryResult.BENIGN = some BinaryResult.BENIGN :=
  ⟨c9_low_risk_unreachable.2.1 0.2 (by norm_num),
   c9_low_risk_unreachable.2.2.2 (some .BENIGN) 0.8
     (by norm_num [deriveRiskLevel, CONFIDENCE_THRESHOLD])⟩

/-- Helper: the optional artifact insertion never touches the predictions
table. -/
theorem artifact_if_predictions (c : Prop) [Decidable c] (db : DB)
    (pid : Nat) (k : ArtifactType) (r : String) :
    (if c then (create_explainability_artifact db pid k r).1
     else db).predictions = db.predictions := by
  split <;> rfl

/-- Claim C10: every Prediction row the orchestrator persists has
stage_result and stage_confidence equal to None, because the stage step
compares the risk-engine strings against High, Medium and Low while
calculate_risk only ever returns High Risk, Medium Risk, Low Risk or
Inconclusive. -/
theorem c10_stage_fields_always_none :
    (∀ p : ℚ, stageStep p = (none, none))
    ∧ ∀ (db : DB) (env : Env),
        (run_prediction db env).1.predictions = db.predictions
        ∨ ∃ pred, (run_prediction db env).1.predictions = db.predictions ++ [pred]
            ∧ pred.stage_result = none ∧ pred.stage_confidence = none := by
  refine ⟨stageStep_eq_none, ?_⟩
  intro db env
  obtain ⟨pid, ml, vi, sc, er⟩ := env
  rcases ml with _ | m
  · exact Or.inl rfl
  rcases vi
  · exact Or.inl rfl
  rcases sc with p | _
  · right
    refine ⟨_, (artifact_if_predictions _ _ _ _ _).trans rfl, ?_, ?_⟩
    · show (if m.supports_stage = true then stageStep p else (none, none)).1 = none
      rcases m.supports_stage <;> simp [stageStep_eq_none]
    · show (if m.supports_stage = true then stageStep p else (none, none)).2 = none
      rcases m.supports_stage <;> simp [stageStep_eq_none]
  · exact Or.inr ⟨_, rfl, rfl, rfl⟩

/-- Claim C1: the derived risk level of every pipeline run that reaches the
risk-derivation step agrees with the reference mapping transcribed from the
spec (absent or sub-0.7 confidence gives INCONCLUSIVE and forces the status
to INCONCLUSIVE, stage results pass through, MALIGNANT maps by the 0.85
threshold, BENIGN maps to LOW, anything unmapped is INCONCLUSIVE), shown
both as pointwise equality of the two mappings and on the pipeline itself,
together with the 0.6-confidence scenario for either binary result. -/
theorem c1_risk_derivation_matches_spec :
    (∀ (br : Option BinaryResult) (c : Option ℚ) (sr : Option StageResult),
        deriveRiskLevel br c sr = specRiskMapping br c sr)
    ∧ deriveRiskLevel (some .MALIGNANT) (some 0.6) none = .INCONCLUSIVE
    ∧ deriveRiskLevel (some .BENIGN) (some 0.6) none = .INCONCLUSIVE
    ∧ ∀ (db : DB) (pid : Nat) (m : ModelRow) (p : ℚ) (er : Option String),
        ∃ pred expl,
          (run_prediction db ⟨pid, some m, true, .ok p, er⟩).2 = .ok pred expl
          ∧ pred.risk_level =
              deriveRiskLevel pred.binary_result pred.binary_confidence pred.stage_result
          ∧ pred.prediction_status =
              (if pred.risk_level = .INCONCLUSIVE then .INCONCLUSIVE else .SUCCESS) := by
  refine ⟨?_, ?_, ?_, ?_⟩
  · intro br c sr
    cases c with
    | none => rfl
    | some c =>
      cases sr with
      | none =>
        cases br with
        | none => rfl
        | some b => cases b <;> rfl
      | some s => cases s <;> rfl
  · norm_num [deriveRiskLevel, CONFIDENCE_THRESHOLD]
  · norm_num [deriveRiskLevel, CONFIDENCE_THRESHOLD]
  · intro db pid m p er
    exact ⟨_, _, rfl, rfl, rfl⟩

/-- Claim C3: whenever binary scoring raises an inference failure or
timeout, the pipeline still persists exactly one Prediction row, carrying
status MODEL_ERROR, writes an INFERENCE_FAILED audit event that references
the model id, and creates no explainability artifact. -/
theorem c3_scoring_failure_persists_model_error :
    ∀ (db : DB) (pid : Nat) (m : ModelRow) (er : Option String),
      (∃ pred,
          (run_prediction db ⟨pid, some m, true, .inferenceError, er⟩).1.predictions
            = db.predictions ++ [pred]
          ∧ pred.prediction_status = .MODEL_ERROR)
      ∧ (∃ a, a ∈ (run_prediction db ⟨pid, some m, true, .inferenceError, er⟩).1.audit_logs
          ∧ a.event_type = .INFERENCE_FAILED
          ∧ a.reference_id = some m.id
          ∧ a.reference_type = some .MODEL)
      ∧ (run_prediction db ⟨pid, some m, true, .inferenceError, er⟩).1.artifacts
          = db.artifacts := by
  intro db pid m er
  refine ⟨⟨_, rfl, rfl⟩, ⟨⟨.INFERENCE_FAILED, some m.id, some .MODEL,
    some "Binary inference failed"⟩, ?_, rfl, rfl, rfl⟩, rfl⟩
  show _ ∈ db.audit_logs ++ [_] ++ [_]
  simp

/-- Claim C4 (code bug): when binary scoring fails, run_prediction does not
terminate exceptionally; the return statement inside the finally block
discards the re-raised scoring exception, so the caller receives a normal
return carrying the MODEL_ERROR prediction and no explainability
reference. -/
theorem c4_scoring_failure_returns_normally :
    ∀ (db : DB) (pid : Nat) (m : ModelRow) (er : Option String),
      ∃ pred,
        (run_prediction db ⟨pid, some m, true, .inferenceError, er⟩).2 = .ok pred none
        ∧ pred.prediction_status = .MODEL_ERROR
        ∧ ((run_prediction db ⟨pid, some m, true, .inferenceError, er⟩).2
            = .err .inferenceError) = False := by
  intro db pid m er
  exact ⟨_, rfl, rfl, eq_false (fun h => Outcome.noConfusion h)⟩

/-- Claim C7: a request whose image payload fails validation is a pure
rejection: the database is left untouched (no Prediction row, no audit
entry, no artifact) and the InvalidImageError is the terminal outcome. -/
theorem c7_invalid_input_pure_rejection :
    ∀ (db : DB) (pid : Nat) (m : ModelRow) (s : ScoreOutcome) (er : Option String),
      run_prediction db ⟨pid, some m, false, s, er⟩ = (db, .err .invalidImage) := by
  intro db pid m s er
  rfl

/-- Counterexample to claim C8 as stated: with no registered model the
pipeline does not fail with the declared ModelNotFoundError; it raises
InferenceError internally and the caller observes the AttributeError from
the persistence attempt against the missing model reference. -/
theorem c8_counterexample_not_model_not_found :
    (run_prediction emptyDB ⟨7, none, true, .inferenceError, none⟩
      = (emptyDB, .err .attributeError))
    ∧ ((run_prediction emptyDB ⟨7, none, true, .inferenceError, none⟩).2
        = .err .modelNotFound) = False := by
  exact ⟨rfl, eq_false (fun h => PipelineError.noConfusion (Outcome.err.inj h))⟩

/-- Claim C8 as amended: for every request naming a model type with no
registered model, run_prediction terminates with an error (the
AttributeError raised while evaluating the missing model reference during
the persistence attempt, after the internal InferenceError), and no
Prediction row, audit entry or artifact is written. -/
theorem c8_amended_no_model_error_without_rows :
    ∀ (db : DB) (pid : Nat) (vi : Bool) (s : ScoreOutcome) (er : Option String),
      run_prediction db ⟨pid, none, vi, s, er⟩ = (db, .err .attributeError) := by
  intro db pid vi s er
  rfl

/-- Counterexample to claim C5 as stated: create_prediction commits the
Prediction row first and only then (in a second, separate commit inside
create_audit_log) the PREDICTION_CREATED audit event, so among the durable
states of a single call there is one in which the Prediction exists and the
audit trail is still empty. -/
theorem c5_counterexample_intermediate_state :
    ∃ s, s ∈ create_prediction_durables emptyDB 1 1 .SUCCESS .LOW none none none none
      ∧ (∃ pred, s.predictions = [pred])
      ∧ s.audit_logs = [] :=
  ⟨_, List.Mem.tail _ (List.Mem.head _), ⟨_, rfl⟩, rfl⟩

/-- Claim C5 as amended: the Prediction row and its PREDICTION_CREATED
audit event are both written by one create_prediction call, but in two
separate commits, prediction first: after the first commit the row is
durable and the audit trail is unchanged, and only after the second commit
does the audit event exist, so a durable state in which the Prediction
exists without its audit event is reachable (and survives if the audit
write fails after the first commit). -/
theorem c5_amended_two_commits :
    ∀ (db : DB) (pid mid : Nat) (st : PredictionStatus) (rl : RiskLevel)
      (br : Option BinaryResult) (bc : Option ℚ)
      (sr : Option StageResult) (sc : Option ℚ),
      (predictionCommit db pid mid st rl br bc sr sc).1.predictions
          = db.predictions ++ [(predictionCommit db pid mid st rl br bc sr sc).2]
      ∧ (predictionCommit db pid mid st rl br bc sr sc).1.audit_logs
          = db.audit_logs
      ∧ (create_prediction db pid mid st rl br bc sr sc).1.predictions
          = db.predictions ++ [(predictionCommit db pid mid st rl br bc sr sc).2]
      ∧ (create_prediction db pid mid st rl br bc sr sc).1.audit_logs
          = db.audit_logs
              ++ [⟨.PREDICTION_CREATED,
                   some (predictionCommit db pid mid st rl br bc sr sc).2.id,
                   some .PREDICTION,
                   some ("Prediction created: " ++ rl.value ++ " risk")⟩]
      ∧ (predictionCommit db pid mid st rl br bc sr sc).1
          ∈ create_prediction_durables db pid mid st rl br bc sr sc := by
  intro db pid mid st rl br bc sr sc
  exact ⟨rfl, rfl, rfl, rfl, List.Mem.tail _ (List.Mem.head _)⟩

/-- Counterexample to claim C6 as stated: create_audit_log performs no
sanitization, so an audit write whose message contains the sensitive key
patient_name is persisted verbatim. -/
theorem c6_counterexample_unsanitized_message :
    ∃ a, a ∈ (create_audit_log emptyDB .MODEL_LOADED none none
        (some "patient_name: test subject")).1.audit_logs
      ∧ a.message = some "patient_name: test subject"
      ∧ "patient_name".toList <:+: "patient_name: test subject".toList :=
  ⟨_, List.Mem.head _, rfl, ⟨[], ": test subject".toList, rfl⟩⟩

/-- Claim C6 as amended: database audit-log writes store the message field
exactly as passed, without any privacy sanitization; the sanitizer
PrivacyGuard.sanitize_log_data exists on the separate in-process logging
path and, when applied, replaces the value of every sensitive key
(file_bytes, image_data, patient_name) with the redaction marker. -/
theorem c6_amended_sanitizer_not_on_db_path :
    (∀ (db : DB) (et : AuditEventType) (ri : Option Nat)
        (rt : Option ReferenceType) (msg : Option String),
        (create_audit_log db et ri rt msg).1.audit_logs
          = db.audit_logs ++ [⟨et, ri, rt, msg⟩])
    ∧ (∀ (data : List (String × String)) (kv : String × String),
        kv ∈ sanitize_log_data data → kv.1 ∈ sensitive_keys →
          kv.2 = "[REDACTED]") := by
  refine ⟨fun db et ri rt msg => rfl, ?_⟩
  intro data kv hmem hkey
  rcases List.mem_map.1 hmem with ⟨kv0, hkv0, heq⟩
  by_cases h : kv0.1 ∈ sensitive_keys
  · rw [if_pos h] at heq
    rw [← heq]
  · rw [if_neg h] at heq
    rw [← heq] at hkey
    exact absurd hkey h

/-- Witness for the amended C6: the sanitizer applied to a dictionary that
carries a patient_name entry, with both hypotheses discharged at the
concrete input. -/
theorem c6_amended_sanitizer_witness :
    ("patient_name", "[REDACTED]") ∈ sanitize_log_data [("patient_name", "test subject")]
    ∧ ("patient_name", "[REDACTED]").2 = "[REDACTED]" :=
  ⟨by simp [sanitize_log_data, sensitive_keys],
   c6_amended_sanitizer_not_on_db_path.2 [("patient_name", "test subject")]
     ("patient_name", "[REDACTED]")
     (by simp [sanitize_log_data, sensitive_keys])
     (by simp [sensitive_keys])⟩

end LungCancer
